import Mathlib

set_option maxRecDepth 10000

/-!
Shallow embedding of the discovery utilities in
`in-vehicle-stack/scenarios/wheelchair_assistant_use_case/digital_twin_providers/common/src/utils.rs`.

The network layer (tonic connect / unary calls) is an external collaborator;
each resolver is modelled as a pure function of the response it receives from
that layer, together with the process environment and the `containerize`
feature flag that the source reads at compile time.
-/

namespace Wheelshare

/-- Model of the gRPC status codes used by `utils.rs` (tonic `Status`). -/
inductive StatusCode where
  | internalError
  | notFoundError
  | failedPreconditionError
deriving DecidableEq

/-- Model of tonic `Status`: a code plus a message string. -/
structure Status where
  code : StatusCode
  message : String
deriving DecidableEq

/-- Constructor mirroring `Status::internal`. -/
def Status.internal (m : String) : Status := ⟨StatusCode.internalError, m⟩

/-- Constructor mirroring `Status::not_found`. -/
def Status.not_found (m : String) : Status := ⟨StatusCode.notFoundError, m⟩

/-- Constructor mirroring `Status::failed_precondition`. -/
def Status.failed_precondition (m : String) : Status := ⟨StatusCode.failedPreconditionError, m⟩

/-- Code name as printed by the Display implementation of tonic `Status`. -/
def StatusCode.name : StatusCode → String
  | StatusCode.internalError => "Internal"
  | StatusCode.notFoundError => "NotFound"
  | StatusCode.failedPreconditionError => "FailedPrecondition"

/-- Model of the Display rendering of a tonic `Status` (used by `format!("\x7berr\x7d")`). -/
def Status.display (s : Status) : String :=
  "status: " ++ s.code.name ++ ", message: " ++ s.message

instance {ε α : Type} [DecidableEq ε] [DecidableEq α] : DecidableEq (Except ε α) := fun x y =>
  match x, y with
  | Except.ok a, Except.ok b =>
      if h : a = b then isTrue (by rw [h])
      else isFalse (fun hh => h (by injection hh))
  | Except.error a, Except.error b =>
      if h : a = b then isTrue (by rw [h])
      else isFalse (fun hh => h (by injection hh))
  | Except.ok _, Except.error _ => isFalse (fun hh => by injection hh)
  | Except.error _, Except.ok _ => isFalse (fun hh => by injection hh)

/-- The `service` payload of a Chariott discover response
(`ServiceMetadata`: uri plus communication kind and reference). -/
structure ServiceMetadata where
  uri : String
  communication_kind : String
  communication_reference : String
deriving DecidableEq

/-- A Chariott `DiscoverResponse`: an optional service record. -/
structure DiscoverResponse where
  service : Option ServiceMetadata
deriving DecidableEq

/-- Message of `utils.rs` line 44. The source passes this string literal to
`Status::not_found` without `format!`, so the braces and names are literal
text, not interpolated values; the embedding reproduces the literal bytes
(\x7b and \x7d denote the brace characters). -/
def chariott_no_service_msg : String :=
  "Did not find a service in Chariott with namespace \x27\x7bnamespace\x7d\x27, name \x27\x7bname\x7d\x27 and version \x7bversion\x7d"

/-- Message of `utils.rs` lines 49-51, again a plain literal without `format!`. -/
def chariott_mismatch_msg : String :=
  "Did not find a service in Chariott with namespace \x27\x7bnamespace\x7d\x27, name \x27\x7bname\x7d\x27 and version \x7bversion\x7d that has communication kind \x27\x7bcommunication_kind\x7d and communication_reference \x27\x7bcommunication_reference\x7d\x27\x27"

/-- Post-response logic of `discover_service_using_chariott` (utils.rs 44-54).
Connection and call failures happen in the external transport layer before
this logic runs and are therefore not part of the embedding. The request
parameters namespace/name/version are sent on the wire but, in the source,
are not interpolated into any error message. -/
def discover_service_using_chariott (namespace_arg name version communication_kind communication_reference : String) (response : DiscoverResponse) : Except Status String :=
  match response.service with
  | none => Except.error (Status.not_found chariott_no_service_msg)
  | some service =>
    if service.communication_kind ≠ communication_kind
        ∧ service.communication_reference ≠ communication_reference then
      Except.error (Status.not_found chariott_mismatch_msg)
    else
      Except.ok service.uri

/-- Process environment as read by `get_uri` in containerize mode:
the two variables HOST_GATEWAY and LOCALHOST_ALIAS, each possibly unset. -/
structure Env where
  host_gateway : Option String
  localhost_alias : Option String
deriving DecidableEq

/-- Env var name from utils.rs line 66. -/
def host_gateway_env_var : String := "HOST_GATEWAY"

/-- Env var name from utils.rs line 67. -/
def host_alias_env_var : String := "LOCALHOST_ALIAS"

/-- Display text of `std::env::VarError::NotPresent`. -/
def var_not_present_msg : String := "environment variable not found"

/-- One scanning pass of Rust `str::replace`: replaces the leftmost
non-overlapping occurrences of `pat` in the remaining input, advancing past
each replacement. `fuel` bounds the recursion; `s.length` fuel suffices for a
nonempty pattern because every step consumes at least one character. -/
def replaceTail (pat rep : List Char) : Nat → List Char → List Char
  | _, [] => []
  | 0, s => s
  | fuel + 1, c :: rest =>
    if pat.isPrefixOf (c :: rest) then
      rep ++ replaceTail pat rep fuel ((c :: rest).drop pat.length)
    else
      c :: replaceTail pat rep fuel rest

/-- Model of Rust `str::replace(pat, rep)`: all non-overlapping occurrences of
`pat` are replaced by `rep`, scanning left to right. An empty pattern matches
at every character boundary including both ends, as in Rust `match_indices`. -/
def rustReplace (s pat rep : String) : String :=
  if pat.data = [] then
    String.mk (rep.data ++ s.data.foldr (fun c acc => c :: (rep.data ++ acc)) [])
  else
    String.mk (replaceTail pat.data rep.data s.data.length s.data)

/-- Embedding of `get_uri` (utils.rs 62-85). The `containerize` flag stands
for the cfg feature of the same name; `env` stands for the process
environment. In containerize mode the two variables are read in order
(HOST_GATEWAY first) and every occurrence of the alias in the URI is replaced
by the gateway; otherwise the URI is returned unchanged. -/
def get_uri (containerize : Bool) (env : Env) (uri : String) : Except Status String :=
  if containerize then
    match env.host_gateway with
    | none => Except.error (Status.failed_precondition
        ("Unable to get environment var \x27" ++ host_gateway_env_var ++ "\x27 with error: " ++ var_not_present_msg))
    | some host_gateway =>
      match env.localhost_alias with
      | none => Except.error (Status.failed_precondition
          ("Unable to get environment var \x27" ++ host_alias_env_var ++ "\x27 with error: " ++ var_not_present_msg))
      | some host_alias => Except.ok (rustReplace uri host_alias host_gateway)
  else
    Except.ok uri

/-- One access endpoint of a digital twin entity (proto `EndpointInfo`). -/
structure EndpointInfo where
  uri : String
  protocol : String
  operations : List String
deriving DecidableEq

/-- The `entity_access_info` payload of a FindById response. -/
structure EntityAccessInfo where
  endpoint_info_list : List EndpointInfo
deriving DecidableEq

/-- An Ibeji `FindByIdResponse`: an optional entity access info. -/
structure FindByIdResponse where
  entity_access_info : Option EntityAccessInfo
deriving DecidableEq

/-- Embedding of `is_subset` (utils.rs 148-154): every member of `subset`
occurs, by string equality, somewhere in `superset`. -/
def is_subset (subset superset : List String) : Bool :=
  subset.all (fun subset_member =>
    superset.any (fun supserset_member => subset_member == supserset_member))

/-- Error message of utils.rs line 119. -/
def entity_not_found_msg : String := "Did not find the entity"

/-- Error message of utils.rs line 139. -/
def no_matching_endpoint_msg : String := "Did not find an endpoint that met our requirements"

/-- Wrapper text of utils.rs line 135 (`format!` interpolates the Status here). -/
def failed_uri_wrap_msg : String := "Failed to get provider URI due to error: "

/-- Post-response logic of `discover_digital_twin_provider_using_ibeji`
(utils.rs 117-140). Connection and call failures precede this logic in the
external transport layer. `entity_id` is used only in log statements. -/
def discover_digital_twin_provider_using_ibeji (containerize : Bool) (env : Env) (entity_id protocol : String) (operations : List String) (response : FindByIdResponse) : Except String EndpointInfo :=
  match response.entity_access_info with
  | none => Except.error entity_not_found_msg
  | some entity_access_info =>
    match entity_access_info.endpoint_info_list.find? (fun endpoint_info =>
        endpoint_info.protocol == protocol
          && is_subset operations endpoint_info.operations) with
    | some result =>
      match get_uri containerize env result.uri with
      | Except.ok new_uri => Except.ok { result with uri := new_uri }
      | Except.error err => Except.error (failed_uri_wrap_msg ++ err.display)
    | none => Except.error no_matching_endpoint_msg

/-- Helper: the boolean subset test agrees with list membership. -/
theorem is_subset_eq_true_iff (A B : List String) :
    is_subset A B = true ↔ ∀ a ∈ A, a ∈ B := by
  simp [is_subset, List.all_eq_true, List.any_eq_true]

/-- Helper: `find?` on a list split around the first satisfying element. -/
theorem find?_first {α : Type} (p : α → Bool) (front back : List α) (e : α)
    (hfront : ∀ x ∈ front, p x = false) (he : p e = true) :
    (front ++ e :: back).find? p = some e := by
  induction front with
  | nil => simpa using List.find?_cons_of_pos back he
  | cons a front ih =>
    have ha : ¬ p a = true := by simp [hfront a (List.mem_cons_self a front)]
    rw [List.cons_append, List.find?_cons_of_neg _ ha]
    exact ih (fun x hx => hfront x (List.mem_cons_of_mem a hx))

/-- Helper: the scanning pass leaves its input unchanged when the pattern
occurs nowhere in it. -/
theorem replaceTail_eq_of_not_infix (pat rep : List Char) :
    ∀ (fuel : Nat) (s : List Char), ¬ (pat <:+: s) → replaceTail pat rep fuel s = s := by
  intro fuel
  induction fuel with
  | zero =>
    intro s hs
    cases s <;> rfl
  | succ fuel ih =>
    intro s hs
    cases s with
    | nil => rfl
    | cons c rest =>
      have hp : ¬ pat.isPrefixOf (c :: rest) = true := by
        rw [ List.isPrefixOf_iff_prefix]
        exact fun hpre => hs hpre.isInfix
      simp only [replaceTail, if_neg hp]
      rw [ih rest (fun hin => hs (List.infix_cons hin))]

/-- Helper: `rustReplace` is the identity when the pattern occurs nowhere in
the string. -/
theorem rustReplace_eq_of_not_infix (s pat rep : String) (h : ¬ (pat.data <:+: s.data)) :
    rustReplace s pat rep = s := by
  have hne : ¬ pat.data = [] := fun h0 => h (h0 ▸ List.nil_infix)
  simp only [rustReplace, if_neg hne,
    replaceTail_eq_of_not_infix pat.data rep.data s.data.length s.data h]

/-- Helper: the wrapped normalization-failure message differs from any message
starting with the letter D. -/
theorem wrap_msg_ne (s m : String) (hm : m.data.head? = some 'D') :
    ¬ (failed_uri_wrap_msg ++ s = m) := by
  intro h
  have h2 : (failed_uri_wrap_msg ++ s).data.head? = some 'F' := rfl
  rw [h, hm] at h2
  exact absurd h2 (by decide)

/-- Helper: inversion of a successful capability-matching resolution: there is
an access info payload, `find?` selected a matched endpoint, normalization of
its URI succeeded, and the result is that endpoint with only the uri replaced. -/
theorem ibeji_ok_inversion (containerize : Bool) (env : Env) (entity_id protocol : String)
    (operations : List String) (response : FindByIdResponse) (e : EndpointInfo)
    (h : discover_digital_twin_provider_using_ibeji containerize env entity_id protocol operations response = Except.ok e) :
    ∃ entity_access_info matched,
      response.entity_access_info = some entity_access_info ∧
      entity_access_info.endpoint_info_list.find? (fun endpoint_info =>
        endpoint_info.protocol == protocol
          && is_subset operations endpoint_info.operations) = some matched ∧
      get_uri containerize env matched.uri = Except.ok e.uri ∧
      e = { matched with uri := e.uri } := by
  rcases response with ⟨eai⟩
  cases eai with
  | none => simp [discover_digital_twin_provider_using_ibeji] at h
  | some entity_access_info =>
    rcases hfind : entity_access_info.endpoint_info_list.find? (fun endpoint_info =>
        endpoint_info.protocol == protocol
          && is_subset operations endpoint_info.operations) with _ | matched
    · simp [discover_digital_twin_provider_using_ibeji, hfind] at h
    · rcases hget : get_uri containerize env matched.uri with err | new_uri
      · simp [discover_digital_twin_provider_using_ibeji, hfind, hget] at h
      · simp only [discover_digital_twin_provider_using_ibeji, hfind, hget,
          Except.ok.injEq] at h
        subst h
        exact ⟨entity_access_info, matched, rfl, hfind, hget, rfl⟩

/-- C1: evaluation of `discover_service_using_chariott` at the failing input.
The source (utils.rs 46-48) rejects a record only when BOTH the communication
kind AND the communication reference differ, so a record whose kind matches
the expected kind but whose reference differs from the expected reference is
accepted and its URI returned, whereas the claim requires a NOT_FOUND error
whenever the two fields do not both match. -/
theorem c1_mismatched_reference_accepted :
    discover_service_using_chariott "sdv.samples" "wheelchair" "1.0" "grpc" "grpc.v1.expected"
      ⟨some ⟨"http://svc:5000", "grpc", "grpc.v1.other"⟩⟩ = Except.ok "http://svc:5000" := by
  decide

/-- C2: when the endpoint list splits as `front ++ e :: back` with every
endpoint in `front` failing the protocol-and-operations filter and `e`
passing it, the resolver selects `e` (the first qualifying endpoint in list
order), returning it with its URI normalized. -/
theorem c2_first_matching_endpoint_selected (containerize : Bool) (env : Env)
    (entity_id protocol : String) (operations : List String)
    (front back : List EndpointInfo) (e : EndpointInfo) (new_uri : String)
    (hfront : ∀ x ∈ front, (x.protocol == protocol && is_subset operations x.operations) = false)
    (he : (e.protocol == protocol && is_subset operations e.operations) = true)
    (huri : get_uri containerize env e.uri = Except.ok new_uri) :
    discover_digital_twin_provider_using_ibeji containerize env entity_id protocol operations
      ⟨some ⟨front ++ e :: back⟩⟩ = Except.ok { e with uri := new_uri } := by
  have hfind := find?_first (fun endpoint_info =>
    endpoint_info.protocol == protocol && is_subset operations endpoint_info.operations)
    front back e hfront he
  simp only [discover_digital_twin_provider_using_ibeji, hfind, huri]

/-- C2 witness: with endpoints [(grpc, [get]), (grpc, [get, set])] and
requested operations [get], the first endpoint is selected even though the
second also qualifies. -/
theorem c2_witness :
    discover_digital_twin_provider_using_ibeji false ⟨none, none⟩ "dtmi:sdv:hvac;1" "grpc" ["get"]
      ⟨some ⟨[⟨"http://u1", "grpc", ["get"]⟩, ⟨"http://u2", "grpc", ["get", "set"]⟩]⟩⟩
      = Except.ok ⟨"http://u1", "grpc", ["get"]⟩ :=
  c2_first_matching_endpoint_selected false ⟨none, none⟩ "dtmi:sdv:hvac;1" "grpc" ["get"]
    [] [⟨"http://u2", "grpc", ["get", "set"]⟩] ⟨"http://u1", "grpc", ["get"]⟩ "http://u1"
    (by simp) (by decide) (by rfl)

/-- C3: `is_subset A B` is true iff every element of A occurs in B by exact
string equality; `is_subset [] B` is true for every B; `is_subset A []` is
true iff A is empty. -/
theorem c3_is_subset_iff (A B : List String) :
    (is_subset A B = true ↔ ∀ a ∈ A, a ∈ B)
    ∧ is_subset [] B = true
    ∧ (is_subset A [] = true ↔ A = []) := by
  refine ⟨is_subset_eq_true_iff A B, rfl, ?_⟩
  rw [is_subset_eq_true_iff]
  simp [List.eq_nil_iff_forall_not_mem]

/-- C4: the resolver fails with the entity-not-found message exactly when the
response carries no entity_access_info payload, and with the
no-matching-endpoint message exactly when the payload is present but its
endpoint list is empty or contains no endpoint passing the
protocol-and-operations filter; the two messages are distinct. -/
theorem c4_error_cases (containerize : Bool) (env : Env) (entity_id protocol : String)
    (operations : List String) (response : FindByIdResponse) :
    (discover_digital_twin_provider_using_ibeji containerize env entity_id protocol operations response
        = Except.error entity_not_found_msg ↔ response.entity_access_info = none)
    ∧ (discover_digital_twin_provider_using_ibeji containerize env entity_id protocol operations response
        = Except.error no_matching_endpoint_msg ↔
      ∃ entity_access_info, response.entity_access_info = some entity_access_info ∧
        entity_access_info.endpoint_info_list.find? (fun endpoint_info =>
          endpoint_info.protocol == protocol
            && is_subset operations endpoint_info.operations) = none)
    ∧ entity_not_found_msg ≠ no_matching_endpoint_msg := by
  refine ⟨?_, ?_, by decide⟩
  · rcases response with ⟨eai⟩
    cases eai with
    | none =>
      simp only [discover_digital_twin_provider_using_ibeji]
    | some entity_access_info =>
      rcases hfind : entity_access_info.endpoint_info_list.find? (fun endpoint_info =>
          endpoint_info.protocol == protocol
            && is_subset operations endpoint_info.operations) with _ | matched
      · simp only [discover_digital_twin_provider_using_ibeji, hfind, Except.error.injEq]
        constructor
        · intro hmsg; exact absurd hmsg.symm (by decide)
        · intro hnone; cases hnone
      · rcases hget : get_uri containerize env matched.uri with err | new_uri
        · simp only [discover_digital_twin_provider_using_ibeji, hfind, hget, Except.error.injEq]
          constructor
          · intro hmsg; exact absurd hmsg (wrap_msg_ne _ _ rfl)
          · intro hnone; cases hnone
        · simp only [discover_digital_twin_provider_using_ibeji, hfind, hget]
          constructor
          · intro hmsg; cases hmsg
          · intro hnone; cases hnone
  · rcases response with ⟨eai⟩
    cases eai with
    | none =>
      simp only [discover_digital_twin_provider_using_ibeji, Except.error.injEq]
      constructor
      · intro hmsg; exact absurd hmsg (by decide)
      · rintro ⟨_, hsome, _⟩; cases hsome
    | some entity_access_info =>
      rcases hfind : entity_access_info.endpoint_info_list.find? (fun endpoint_info =>
          endpoint_info.protocol == protocol
            && is_subset operations endpoint_info.operations) with _ | matched
      · simp only [discover_digital_twin_provider_using_ibeji, hfind]
        constructor
        · intro _; exact ⟨entity_access_info, rfl, hfind⟩
        · intro _; trivial
      · rcases hget : get_uri containerize env matched.uri with err | new_uri
        · simp only [discover_digital_twin_provider_using_ibeji, hfind, hget, Except.error.injEq]
          constructor
          · intro hmsg; exact absurd hmsg (wrap_msg_ne _ _ rfl)
          · rintro ⟨eai2, hsome, hnone⟩
            cases hsome
            rw [hfind] at hnone
            cases hnone
        · simp only [discover_digital_twin_provider_using_ibeji, hfind, hget]
          constructor
          · intro hmsg; cases hmsg
          · rintro ⟨eai2, hsome, hnone⟩
            cases hsome
            rw [hfind] at hnone
            cases hnone

/-- C5: whenever the capability-matching resolver returns Ok with an
EndpointInfo, that endpoint carries exactly the requested protocol and every
requested operation occurs in its operation list. -/
theorem c5_selected_endpoint_invariant (containerize : Bool) (env : Env)
    (entity_id protocol : String) (operations : List String)
    (response : FindByIdResponse) (e : EndpointInfo)
    (h : discover_digital_twin_provider_using_ibeji containerize env entity_id protocol operations response = Except.ok e) :
    e.protocol = protocol ∧ ∀ op ∈ operations, op ∈ e.operations := by
  obtain ⟨eai, matched, _, hfind, _, he⟩ :=
    ibeji_ok_inversion containerize env entity_id protocol operations response e h
  have hpred := List.find?_some hfind
  rw [Bool.and_eq_true, beq_iff_eq] at hpred
  constructor
  · rw [he]
    exact hpred.1
  · rw [he]
    exact (is_subset_eq_true_iff operations matched.operations).mp hpred.2

/-- C5 witness: a concrete successful resolution whose returned endpoint
satisfies the invariant. -/
theorem c5_witness :
    (⟨"http://u3", "grpc", ["get", "set"]⟩ : EndpointInfo).protocol = "grpc"
    ∧ ∀ op ∈ (["get"] : List String), op ∈ (⟨"http://u3", "grpc", ["get", "set"]⟩ : EndpointInfo).operations :=
  c5_selected_endpoint_invariant false ⟨none, none⟩ "dtmi:sdv:seat;1" "grpc" ["get"]
    ⟨some ⟨[⟨"http://u3", "grpc", ["get", "set"]⟩]⟩⟩ ⟨"http://u3", "grpc", ["get", "set"]⟩
    (by decide)

/-- C6: in containerize mode with both environment values present, `get_uri`
returns the input URI with every occurrence of the loopback alias replaced by
the gateway (the Rust `str::replace` semantics captured by `rustReplace`). -/
theorem c6_get_uri_replaces_alias (env : Env) (uri gateway alias_value : String)
    (hg : env.host_gateway = some gateway) (ha : env.localhost_alias = some alias_value) :
    get_uri true env uri = Except.ok (rustReplace uri alias_value gateway) := by
  simp [get_uri, hg, ha]

/-- C6 witness: with gateway 10.0.0.1 and alias localhost, the input
http://localhost:8080/x is rewritten to http://10.0.0.1:8080/x. -/
theorem c6_witness :
    get_uri true ⟨some "10.0.0.1", some "localhost"⟩ "http://localhost:8080/x"
      = Except.ok "http://10.0.0.1:8080/x" := by
  rw [c6_get_uri_replaces_alias ⟨some "10.0.0.1", some "localhost"⟩
    "http://localhost:8080/x" "10.0.0.1" "localhost" rfl rfl]
  decide

/-- C7: evaluation of `discover_service_using_chariott` at the failing input.
The source passes its NOT_FOUND message as a plain string literal without
`format!`, so the braces and parameter names are emitted verbatim and the
actual namespace value (here myns) does not occur anywhere in the message,
contrary to the claim that error messages embed the request parameters. -/
theorem c7_message_lacks_parameters :
    discover_service_using_chariott "myns" "myname" "1.2.3" "grpc" "http://ref" ⟨none⟩
      = Except.error (Status.not_found chariott_no_service_msg)
    ∧ ¬ ("myns".data <:+: chariott_no_service_msg.data) := by
  constructor
  · rfl
  · decide

/-- C8: in containerize mode, a missing HOST_GATEWAY value makes `get_uri`
fail with a FAILED_PRECONDITION status naming HOST_GATEWAY, and with
HOST_GATEWAY present a missing LOCALHOST_ALIAS value makes it fail with a
FAILED_PRECONDITION status naming LOCALHOST_ALIAS; in both cases no
replacement output is produced. -/
theorem c8_missing_env_failed_precondition (env : Env) (uri : String) :
    (env.host_gateway = none →
      get_uri true env uri = Except.error (Status.failed_precondition
        ("Unable to get environment var \x27" ++ host_gateway_env_var ++ "\x27 with error: " ++ var_not_present_msg)))
    ∧ (∀ gateway, env.host_gateway = some gateway → env.localhost_alias = none →
      get_uri true env uri = Except.error (Status.failed_precondition
        ("Unable to get environment var \x27" ++ host_alias_env_var ++ "\x27 with error: " ++ var_not_present_msg))) := by
  constructor
  · intro hg
    simp [get_uri, hg]
  · intro gateway hg ha
    simp [get_uri, hg, ha]

/-- C8 witness: with HOST_GATEWAY unset the concrete error names the
variable. -/
theorem c8_witness :
    get_uri true ⟨none, some "localhost"⟩ "http://localhost:8080/x"
      = Except.error (Status.failed_precondition
        "Unable to get environment var \x27HOST_GATEWAY\x27 with error: environment variable not found") := by
  rw [(c8_missing_env_failed_precondition ⟨none, some "localhost"⟩ "http://localhost:8080/x").1 rfl]
  rfl

/-- C9 counterexample: with gateway b and alias ab, `get_uri` succeeds on aab
with value ab, but applying `get_uri` again to ab yields b, not ab — the
replacement recreated an occurrence of the alias at the boundary between kept
text and replaced text, so normalization is not idempotent as claimed. -/
theorem c9_not_idempotent_counterexample :
    get_uri true ⟨some "b", some "ab"⟩ "aab" = Except.ok "ab"
    ∧ get_uri true ⟨some "b", some "ab"⟩ "ab" ≠ Except.ok "ab" := by
  constructor
  · decide
  · decide

/-- C9 amended: given fixed configuration, a second application of `get_uri`
returns its input unchanged on every already-normalized URI in which the
alias no longer occurs as a substring; the unrestricted claim fails because a
replacement pass can produce new occurrences of the alias. -/
theorem c9_idempotent_when_alias_absent (env : Env) (u r : String)
    (h1 : get_uri true env u = Except.ok r)
    (h2 : ∀ alias_value, env.localhost_alias = some alias_value →
      ¬ (alias_value.data <:+: r.data)) :
    get_uri true env r = Except.ok r := by
  rcases env with ⟨hg, ha⟩
  cases hg with
  | none => simp [get_uri] at h1
  | some gateway =>
    cases ha with
    | none => simp [get_uri] at h1
    | some alias_value =>
      simp only [get_uri, if_true, Except.ok.injEq]
      exact rustReplace_eq_of_not_infix r alias_value gateway (h2 alias_value rfl)

/-- C9 witness: the already-normalized URI http://10.0.0.1:8080/x, which no
longer contains the alias localhost, is returned unchanged. -/
theorem c9_witness :
    get_uri true ⟨some "10.0.0.1", some "localhost"⟩ "http://10.0.0.1:8080/x"
      = Except.ok "http://10.0.0.1:8080/x" :=
  c9_idempotent_when_alias_absent ⟨some "10.0.0.1", some "localhost"⟩
    "http://localhost:8080/x" "http://10.0.0.1:8080/x" (by decide)
    (fun alias_value hs => by
      injection hs with hs
      subst hs
      decide)

/-- C10: whenever the capability-matching resolver returns Ok with endpoint
`e`, the directory response contains an access info whose list has a matched
endpoint (selected by `find?`), the normalizer maps that endpoint URI to
`e.uri`, and `e` agrees with the matched endpoint on the protocol and on the
operations list (content and order) — only the uri field was replaced. -/
theorem c10_only_uri_modified (containerize : Bool) (env : Env)
    (entity_id protocol : String) (operations : List String)
    (response : FindByIdResponse) (e : EndpointInfo)
    (h : discover_digital_twin_provider_using_ibeji containerize env entity_id protocol operations response = Except.ok e) :
    ∃ entity_access_info matched,
      response.entity_access_info = some entity_access_info ∧
      entity_access_info.endpoint_info_list.find? (fun endpoint_info =>
        endpoint_info.protocol == protocol
          && is_subset operations endpoint_info.operations) = some matched ∧
      get_uri containerize env matched.uri = Except.ok e.uri ∧
      e.protocol = matched.protocol ∧ e.operations = matched.operations := by
  obtain ⟨eai, matched, hsome, hfind, hget, he⟩ :=
    ibeji_ok_inversion containerize env entity_id protocol operations response e h
  exact ⟨eai, matched, hsome, hfind, hget, by rw [he], by rw [he]⟩

/-- C10 witness: a concrete containerized resolution in which the matched
endpoint URI http://localhost:1234 is rewritten to http://10.0.0.1:1234 while
protocol and operations are returned untouched. -/
theorem c10_witness :
    ∃ entity_access_info matched,
      (⟨some ⟨[⟨"http://localhost:1234", "grpc", ["get", "subscribe"]⟩]⟩⟩ : FindByIdResponse).entity_access_info = some entity_access_info ∧
      entity_access_info.endpoint_info_list.find? (fun endpoint_info =>
        endpoint_info.protocol == "grpc"
          && is_subset ["get"] endpoint_info.operations) = some matched ∧
      get_uri true ⟨some "10.0.0.1", some "localhost"⟩ matched.uri
        = Except.ok (⟨"http://10.0.0.1:1234", "grpc", ["get", "subscribe"]⟩ : EndpointInfo).uri ∧
      (⟨"http://10.0.0.1:1234", "grpc", ["get", "subscribe"]⟩ : EndpointInfo).protocol = matched.protocol
      ∧ (⟨"http://10.0.0.1:1234", "grpc", ["get", "subscribe"]⟩ : EndpointInfo).operations = matched.operations :=
  c10_only_uri_modified true ⟨some "10.0.0.1", some "localhost"⟩ "dtmi:sdv:door;1" "grpc" ["get"]
    ⟨some ⟨[⟨"http://localhost:1234", "grpc", ["get", "subscribe"]⟩]⟩⟩
    ⟨"http://10.0.0.1:1234", "grpc", ["get", "subscribe"]⟩ (by decide)

end Wheelshare
